import Mathlib

/-!
Shallow embedding of the MyCityWebGL simulation core (TypeScript sources under
`src/`) together with theorems settling the claims C1..C10 about it.

Modelling conventions:
* JavaScript numbers are modelled as `Rat` (continuous quantities: balances,
  occupancy percentages, demand, happiness) or `Int`/`Nat` (grid coordinates,
  counts).  The sources only compare square roots against nonnegative bounds,
  so every `Math.sqrt(s) <= r` test is embedded as the exact equivalent
  `0 <= r && s <= r*r`.
* JavaScript `Map`s are embedded as association lists keeping insertion order:
  `set` replaces in place when the key is present and appends otherwise.
  Tiles are keyed by their grid position (`gridPositionToKey` is injective);
  buildings and roads by a numeric id (`generateId` is modelled by a counter
  `nextId` threaded through the state — only freshness of ids matters).
* Wall-clock timestamps (`createdAt`, `lastUpdate`) are not represented.
* `Math.random()` draws are supplied by explicit oracle arguments (rationals
  in `[0,1)`, or index picks derived from them).
* `setTimeout(cb, 0)` is modelled by returning, next to the new state, the
  list of deferred callbacks that the mutation scheduled; the state returned
  is exactly the state observable before any deferred callback runs.
-/

namespace MyCity

/-- Grid position, `GridPosition` of `game.types` (`{x, z}` integers). -/
structure Pos where
  x : Int
  z : Int
deriving DecidableEq, Repr

/-- Zone categories, `ZoneType`. -/
inductive Zone where
  | residential
  | commercial
  | industrial
deriving DecidableEq, Repr

/-- Service categories, `ServiceType` of `building.types.ts`. -/
inductive ServiceKind where
  | police
  | fire
  | health
  | education
  | power
  | water
  | waste
deriving DecidableEq, Repr

/-- Tile occupancy kind, `TileType` of `game.types`. -/
inductive TileKind where
  | empty
  | building
  | road
  | water
  | park
  | special
deriving DecidableEq, Repr

/-- Static building definition, `BuildingDefinition` of `building.types.ts`.
Only the fields read by the embedded operations are kept (visual paths,
requirements and effect coefficients are never consulted by them). -/
structure BuildingDef where
  id : String
  category : String
  zone : Option Zone
  sizeW : Nat
  sizeD : Nat
  cost : Rat
  maintenanceCost : Rat
  capacity : Rat
  jobs : Rat
  serviceRadius : Option Int
  serviceType : Option ServiceKind
deriving DecidableEq, Repr

/-- Building instance, `Building` of `building.types.ts` (timestamps omitted). -/
structure Building where
  id : Nat
  definitionId : String
  position : Pos
  rotation : Int
  level : Nat
  occupancy : Rat
  condition : Rat
  isActive : Bool
  isPowered : Bool
  hasWater : Bool
deriving DecidableEq, Repr

/-- Tile, `TileData` of `game.types` (the string id equals the key of the
position and is not duplicated here). -/
structure TileData where
  position : Pos
  type : TileKind
  buildingId : Option Nat
  roadId : Option Nat
  zone : Option Zone
  elevation : Rat
  landValue : Rat
  pollution : Rat
  crime : Rat
  traffic : Rat
deriving DecidableEq, Repr

/-- Road, `Road` of `simulation.types` (`connections` stores the keys of the
connected neighbour roads; keys are modelled by positions). -/
structure Road where
  id : Nat
  position : Pos
  connections : List Pos
  trafficLoad : Rat
deriving DecidableEq, Repr

/-- Per-zone tax rates. -/
structure TaxRates where
  residential : Rat
  commercial : Rat
  industrial : Rat
deriving DecidableEq, Repr

/-- Tax income breakdown. -/
structure TaxIncome where
  residential : Rat
  commercial : Rat
  industrial : Rat
  total : Rat
deriving DecidableEq, Repr

/-- Service expense breakdown. -/
structure ServiceExpenses where
  police : Rat
  fire : Rat
  health : Rat
  education : Rat
  power : Rat
  water : Rat
  waste : Rat
  total : Rat
deriving DecidableEq, Repr

/-- Economy state, `EconomyState` of `simulation.types` (history omitted). -/
structure EconomyState where
  balance : Rat
  income : Rat
  expenses : Rat
  taxRates : TaxRates
  taxIncome : TaxIncome
  serviceExpenses : ServiceExpenses
  maintenanceExpenses : Rat
deriving DecidableEq, Repr

/-- Demographic breakdown. -/
structure Demographics where
  children : Int
  adults : Int
  elderly : Int
deriving DecidableEq, Repr

/-- Population state, `PopulationState` of `simulation.types`. -/
structure PopulationState where
  total : Int
  residential : Rat
  workers : Int
  employed : Int
  unemployed : Int
  employmentRate : Rat
  happiness : Rat
  health : Rat
  education : Rat
  growth : Int
  births : Int
  deaths : Int
  migration : Int
  demographics : Demographics
deriving DecidableEq, Repr

/-- Zone demand scalars, `ZoneDemand`. -/
structure ZoneDemand where
  residential : Rat
  commercial : Rat
  industrial : Rat
deriving DecidableEq, Repr

/-- State held by the zustand city store (`cityStore.ts`).  `nextId` models
the id generator. -/
structure CityState where
  tiles : List TileData
  buildings : List Building
  roads : List Road
  catalog : List BuildingDef
  economy : EconomyState
  population : PopulationState
  zoneDemand : ZoneDemand
  nextId : Nat
deriving DecidableEq, Repr

/-- Deferred callbacks scheduled via `setTimeout(cb, 0)` by store actions. -/
inductive Deferred where
  | calcUtilities
deriving DecidableEq, Repr

/-! ### Constants (`lib/constants.ts`) -/

def GRID_SIZE : Int := 64

def TAX_INCOME_PER_RESIDENT : Rat := 10

def TAX_INCOME_PER_WORKER : Rat := 15

def TAX_INCOME_PER_INDUSTRY : Rat := 20

def BASE_HAPPINESS : Rat := 50

def MAX_HAPPINESS : Rat := 100

def MIN_HAPPINESS : Rat := 0

def POPULATION_GROWTH_RATE : Rat := 1/100

def MIGRATION_FACTOR : Rat := 1/2

def MAX_VEHICLES : Nat := 200

def VEHICLE_SPEED : Rat := 2

def VEHICLE_SPAWN_RATE : Rat := 1/10

def CONGESTION_THRESHOLD : Rat := 7/10

/-! ### Utilities (`lib/utils.ts`) -/

/-- `clamp(value, min, max)`. -/
def clampQ (value lo hi : Rat) : Rat := min (max value lo) hi

/-- `lerp(a, b, t)`. -/
def lerpQ (a b t : Rat) : Rat := a + (b - a) * t

/-- `isValidGridPosition`. -/
def isValidGridPosition (p : Pos) : Bool :=
  0 ≤ p.x && p.x < GRID_SIZE && 0 ≤ p.z && p.z < GRID_SIZE

/-- `getAdjacentTiles`: north, south, west, east, filtered to the grid. -/
def getAdjacentTiles (p : Pos) : List Pos :=
  [⟨p.x, p.z - 1⟩, ⟨p.x, p.z + 1⟩, ⟨p.x - 1, p.z⟩, ⟨p.x + 1, p.z⟩].filter
    isValidGridPosition

/-- `manhattanDistance`. -/
def manhattanDistance (a b : Pos) : Nat :=
  (a.x - b.x).natAbs + (a.z - b.z).natAbs

/-- Squared Euclidean distance between two grid positions. -/
def distSq (a b : Pos) : Int :=
  (a.x - b.x) * (a.x - b.x) + (a.z - b.z) * (a.z - b.z)

/-- `Math.sqrt(dx*dx + dz*dz) <= radius`, embedded exactly via squares
(for any rational radius, `sqrt s <= r` iff `0 <= r` and `s <= r^2`). -/
def inRadius (a b : Pos) (r : Int) : Bool :=
  0 ≤ r && distSq a b ≤ r * r

/-! ### Association-list helpers with JavaScript `Map` insertion semantics -/

/-- `Map.set` keyed by building id: replace in place when present, else
append (JS maps keep the original insertion position on update). -/
def setBuilding (l : List Building) (b : Building) : List Building :=
  if l.any (fun x => x.id == b.id) then
    l.map (fun x => if x.id == b.id then b else x)
  else l ++ [b]

/-- Lookup of a building by id. -/
def getBuilding (l : List Building) (i : Nat) : Option Building :=
  l.find? (fun x => x.id == i)

/-- `Map.set` keyed by tile position. -/
def setTileAt (l : List TileData) (t : TileData) : List TileData :=
  if l.any (fun x => x.position == t.position) then
    l.map (fun x => if x.position == t.position then t else x)
  else l ++ [t]

/-- `tiles.get(gridPositionToKey(p))` (`cityStore.getTile` performs no bounds
check; absent keys yield `undefined`). -/
def getTileAt (l : List TileData) (p : Pos) : Option TileData :=
  l.find? (fun x => x.position == p)

/-- `buildingCatalog.find(b => b.id === definitionId)`
(`getBuildingDefinition`). -/
def findDef (catalog : List BuildingDef) (i : String) : Option BuildingDef :=
  catalog.find? (fun d => d.id == i)

/-- Service radius with the `def?.serviceRadius || 0` fallback. -/
def radiusOf (catalog : List BuildingDef) (b : Building) : Int :=
  match findDef catalog b.definitionId with
  | some d => d.serviceRadius.getD 0
  | none => 0

/-- Whether a building's definition carries the given service type. -/
def hasService (catalog : List BuildingDef) (b : Building)
    (k : ServiceKind) : Bool :=
  match findDef catalog b.definitionId with
  | some d => d.serviceType == some k
  | none => false

/-! ### `calculateUtilities` (`cityStore.ts` 645–734)

The source resets every `isPowered`/`hasWater` flag, then for each *active*
power source marks the source itself and every building within its service
radius as powered, then for each *active and powered* water source marks the
source itself and every building within its radius as watered.  Positions and
`isActive` flags are not mutated during the passes, so the sequential object
mutation is equivalent to the batch recomputation below. -/

/-- Value of `b.isPowered` after the power pass of `calculateUtilities`. -/
def poweredAfter (s : CityState) (b : Building) : Bool :=
  (hasService s.catalog b .power && b.isActive) ||
  s.buildings.any (fun src =>
    hasService s.catalog src .power && src.isActive &&
    inRadius src.position b.position (radiusOf s.catalog src))

/-- Value of `b.hasWater` after the water pass of `calculateUtilities`
(a water pump is consulted with its *post power pass* `isPowered`). -/
def wateredAfter (s : CityState) (b : Building) : Bool :=
  (hasService s.catalog b .water && b.isActive && poweredAfter s b) ||
  s.buildings.any (fun src =>
    hasService s.catalog src .water && src.isActive && poweredAfter s src &&
    inRadius src.position b.position (radiusOf s.catalog src))

/-- `calculateUtilities` store action. -/
def calculateUtilities (s : CityState) : CityState :=
  { s with buildings := s.buildings.map (fun b =>
      { b with isPowered := poweredAfter s b, hasWater := wateredAfter s b }) }

/-! ### Building placement and removal (`cityStore.ts` 207–339, 832–863) -/

/-- Footprint positions `(x+dx, z+dz)` for `dx < w`, `dz < d`. -/
def footprint (p : Pos) (w d : Nat) : List Pos :=
  ((List.range w).map (fun dx =>
    (List.range d).map (fun dz => Pos.mk (p.x + dx) (p.z + dz)))).flatten

/-- Area check of `placeBuilding`: every footprint tile exists and carries
neither a building nor a road. -/
def areaFree (tiles : List TileData) (p : Pos) (w d : Nat) : Bool :=
  (footprint p w d).all (fun q =>
    match getTileAt tiles q with
    | some t => t.buildingId == none && t.roadId == none
    | none => false)

/-- Mark every existing footprint tile with the new building id. -/
def claimTiles (tiles : List TileData) (p : Pos) (w d : Nat)
    (bid : Nat) : List TileData :=
  (footprint p w d).foldl (fun ts q =>
    match getTileAt ts q with
    | some t => setTileAt ts { t with type := .building, buildingId := some bid }
    | none => ts) tiles

/-- Clear every existing footprint tile (building removal). -/
def releaseTiles (tiles : List TileData) (p : Pos) (w d : Nat) :
    List TileData :=
  (footprint p w d).foldl (fun ts q =>
    match getTileAt ts q with
    | some t => setTileAt ts { t with type := .empty, buildingId := none }
    | none => ts) tiles

/-- Nearest road to the building centre, minimising the (squared) Euclidean
distance with a strict comparison, in road-map insertion order. -/
def nearestRoadTo (roads : List Road) (cx cz : Rat) : Option (Rat × Pos) :=
  roads.foldl (fun acc r =>
    let d := (r.position.x - cx) * (r.position.x - cx) +
             (r.position.z - cz) * (r.position.z - cz)
    match acc with
    | none => some (d, r.position)
    | some best => if d < best.1 then some (d, r.position) else acc) none

/-- Rotation adjustment of `placeBuilding`: residential/commercial/industrial
buildings face the nearest road when one lies within distance 10
(`minDistance < 10` is embedded as `distSq < 100`). -/
def faceRoadRotation (s : CityState) (defn : BuildingDef) (p : Pos)
    (rotation : Int) : Int :=
  let shouldFace := defn.category == "residential" ||
    defn.category == "commercial" || defn.category == "industrial"
  if shouldFace && !s.roads.isEmpty then
    match nearestRoadTo s.roads ((p.x : Rat) + defn.sizeW / 2)
        ((p.z : Rat) + defn.sizeD / 2) with
    | some best =>
      if best.1 < 100 then
        let dx : Rat := best.2.x - ((p.x : Rat) + defn.sizeW / 2)
        let dz : Rat := best.2.z - ((p.z : Rat) + defn.sizeD / 2)
        if |dx| > |dz| then (if dx > 0 then 90 else 270)
        else (if dz > 0 then 180 else 0)
      else rotation
    | none => rotation
  else rotation

/-- `placeBuilding` store action.  Returns the created building (or `none` on
any validation failure), the new store state, and the deferred callbacks the
action scheduled via `setTimeout(..., 0)`. -/
def placeBuilding (s : CityState) (definitionId : String) (p : Pos)
    (rotation : Int) : Option Building × CityState × List Deferred :=
  match findDef s.catalog definitionId with
  | none => (none, s, [])
  | some defn =>
    if s.economy.balance < defn.cost then (none, s, [])
    else if !areaFree s.tiles p defn.sizeW defn.sizeD then (none, s, [])
    else
      let b : Building :=
        { id := s.nextId, definitionId := definitionId, position := p,
          rotation := faceRoadRotation s defn p rotation, level := 1,
          occupancy := 0, condition := 100, isActive := true,
          isPowered := false, hasWater := false }
      (some b,
       { s with
          buildings := setBuilding s.buildings b,
          tiles := claimTiles s.tiles p defn.sizeW defn.sizeD b.id,
          economy := { s.economy with
            balance := s.economy.balance - defn.cost },
          nextId := s.nextId + 1 },
       [Deferred.calcUtilities])

/-- `removeBuilding` store action. -/
def removeBuilding (s : CityState) (bid : Nat) :
    CityState × List Deferred :=
  match getBuilding s.buildings bid with
  | none => (s, [])
  | some b =>
    match findDef s.catalog b.definitionId with
    | none => (s, [])
    | some defn =>
      ({ s with
          buildings := s.buildings.filter (fun x => !(x.id == bid)),
          tiles := releaseTiles s.tiles b.position defn.sizeW defn.sizeD },
       [Deferred.calcUtilities])

/-- `placeBuildingFree` store action: no funds or availability check, no cost
debit, and only the single origin tile is marked. -/
def placeBuildingFree (s : CityState) (definitionId : String) (p : Pos) :
    CityState :=
  match findDef s.catalog definitionId with
  | none => s
  | some _ =>
    let b : Building :=
      { id := s.nextId, definitionId := definitionId, position := p,
        rotation := 0, level := 1, occupancy := 0, condition := 100,
        isActive := true, isPowered := false, hasWater := false }
    { s with
        buildings := setBuilding s.buildings b,
        tiles := match getTileAt s.tiles p with
          | some t =>
            setTileAt s.tiles { t with type := .building, buildingId := some b.id }
          | none => s.tiles,
        nextId := s.nextId + 1 }

/-! ### Economy system (`EconomySystem.ts`), hourly -/

/-- Zone demand lookup `zoneDemand[zone]`. -/
def demandOf (zd : ZoneDemand) : Zone → Rat
  | .residential => zd.residential
  | .commercial => zd.commercial
  | .industrial => zd.industrial

/-- Residential tax income accumulator of `calculateIncome`. -/
def residentialIncome (s : CityState) : Rat :=
  s.buildings.foldl (fun acc b =>
    match findDef s.catalog b.definitionId with
    | none => acc
    | some d =>
      match d.zone with
      | some .residential =>
        acc + d.capacity * (b.occupancy / 100) * TAX_INCOME_PER_RESIDENT *
          (s.economy.taxRates.residential / 100)
      | _ => acc) 0

/-- Commercial tax income accumulator of `calculateIncome`. -/
def commercialIncome (s : CityState) : Rat :=
  s.buildings.foldl (fun acc b =>
    match findDef s.catalog b.definitionId with
    | none => acc
    | some d =>
      match d.zone with
      | some .commercial =>
        acc + d.jobs * (b.occupancy / 100) * TAX_INCOME_PER_WORKER *
          (s.economy.taxRates.commercial / 100)
      | _ => acc) 0

/-- Industrial tax income accumulator of `calculateIncome`. -/
def industrialIncome (s : CityState) : Rat :=
  s.buildings.foldl (fun acc b =>
    match findDef s.catalog b.definitionId with
    | none => acc
    | some d =>
      match d.zone with
      | some .industrial =>
        acc + d.jobs * (b.occupancy / 100) * TAX_INCOME_PER_INDUSTRY *
          (s.economy.taxRates.industrial / 100)
      | _ => acc) 0

/-- `EconomySystem.calculateIncome`. -/
def calculateIncome (s : CityState) : CityState :=
  let ri := residentialIncome s
  let ci := commercialIncome s
  let ii := industrialIncome s
  { s with economy := { s.economy with
      taxIncome :=
        { residential := (⌊ri⌋ : Int), commercial := (⌊ci⌋ : Int),
          industrial := (⌊ii⌋ : Int), total := (⌊ri + ci + ii⌋ : Int) },
      income := ((⌊ri + ci + ii⌋ : Int) : Rat) } }

/-- Maintenance expense of buildings whose definition carries the given
service type. -/
def serviceExpenseOf (s : CityState) (k : ServiceKind) : Rat :=
  s.buildings.foldl (fun acc b =>
    match findDef s.catalog b.definitionId with
    | none => acc
    | some d => if d.serviceType == some k then acc + d.maintenanceCost else acc) 0

/-- Total building maintenance accumulator of `calculateExpenses`. -/
def maintenanceOf (s : CityState) : Rat :=
  s.buildings.foldl (fun acc b =>
    match findDef s.catalog b.definitionId with
    | none => acc
    | some d => acc + d.maintenanceCost) 0

/-- `EconomySystem.calculateExpenses`. -/
def calculateExpenses (s : CityState) : CityState :=
  let sp := serviceExpenseOf s .police
  let sf := serviceExpenseOf s .fire
  let sh := serviceExpenseOf s .health
  let se := serviceExpenseOf s .education
  let spw := serviceExpenseOf s .power
  let sw := serviceExpenseOf s .water
  let sws := serviceExpenseOf s .waste
  let m := maintenanceOf s
  let svcTotal := sp + sf + sh + se + spw + sw + sws
  { s with economy := { s.economy with
      serviceExpenses :=
        { police := sp, fire := sf, health := sh, education := se,
          power := spw, water := sw, waste := sws, total := svcTotal },
      maintenanceExpenses := m,
      expenses := m + svcTotal } }

/-- `EconomySystem.updateBalance`: apply the hourly share of the stored
monthly-scale net income. -/
def applyHourlyBalance (s : CityState) : CityState :=
  { s with economy := { s.economy with
      balance := s.economy.balance +
        (s.economy.income / 24 - s.economy.expenses / 24) } }

/-- One hourly `EconomySystem.update` body:
`calculateIncome` then `calculateExpenses` then `updateBalance`. -/
def hourlyEconomyUpdate (s : CityState) : CityState :=
  applyHourlyBalance (calculateExpenses (calculateIncome s))

/-! ### Population system (`PopulationSystem.ts`, two revisions) -/

/-- `updateOccupancy` of the first revision (lerp factor `0.1`). -/
def updateOccupancy1 (s : CityState) : CityState :=
  { s with buildings := s.buildings.map (fun b =>
      match findDef s.catalog b.definitionId with
      | none => b
      | some d =>
        match d.zone with
        | none => b
        | some z =>
          let demandFactor := (demandOf s.zoneDemand z + 100) / 200
          let happinessFactor := s.population.happiness / 100
          let t0 := demandFactor * happinessFactor * 100
          let t1 := if b.isPowered then t0 else t0 * (1/2)
          let t2 := if b.hasWater then t1 else t1 * (7/10)
          { b with occupancy := clampQ (lerpQ b.occupancy t2 (1/10)) 0 100 }) }

/-- `updateOccupancy` of the second revision (lerp factor `0.2`, and
residential occupancy is floored at 20). -/
def updateOccupancy2 (s : CityState) : CityState :=
  { s with buildings := s.buildings.map (fun b =>
      match findDef s.catalog b.definitionId with
      | none => b
      | some d =>
        match d.zone with
        | none => b
        | some z =>
          let demandFactor := (demandOf s.zoneDemand z + 100) / 200
          let happinessFactor := s.population.happiness / 100
          let t0 := demandFactor * happinessFactor * 100
          let t1 := if b.isPowered then t0 else t0 * (1/2)
          let t2 := if b.hasWater then t1 else t1 * (7/10)
          let occ := clampQ (lerpQ b.occupancy t2 (2/10)) 0 100
          let occ := if z == .residential && occ < 20 then max occ 20 else occ
          { b with occupancy := occ }) }

/-- `Σ capacity * occupancy%` over residential buildings
(`occupiedCapacity` of `calculateEmployment`). -/
def occupiedCapacityOf (s : CityState) : Rat :=
  s.buildings.foldl (fun acc b =>
    match findDef s.catalog b.definitionId with
    | none => acc
    | some d =>
      if d.zone == some Zone.residential then acc + d.capacity * (b.occupancy / 100)
      else acc) 0

/-- `Σ capacity` over residential buildings (`totalCapacity`). -/
def totalCapacityOf (s : CityState) : Rat :=
  s.buildings.foldl (fun acc b =>
    match findDef s.catalog b.definitionId with
    | none => acc
    | some d =>
      if d.zone == some Zone.residential then acc + d.capacity else acc) 0

/-- `filledJobs`: jobs weighted by occupancy over non-residential
definitions with positive jobs. -/
def filledJobsOf (s : CityState) : Rat :=
  s.buildings.foldl (fun acc b =>
    match findDef s.catalog b.definitionId with
    | none => acc
    | some d =>
      if d.zone == some Zone.residential then acc
      else if 0 < d.jobs then acc + d.jobs * (b.occupancy / 100)
      else acc) 0

/-- `calculateEmployment` of the first revision: it *sets* the population
total to the floored occupied residential capacity. -/
def calculateEmployment1 (s : CityState) : CityState :=
  let totalPopulation : Int := ⌊occupiedCapacityOf s⌋
  let workers : Int := ⌊(totalPopulation : Rat) * (6/10)⌋
  let employed : Int := min workers ⌊filledJobsOf s⌋
  let unemployed := workers - employed
  { s with population := { s.population with
      total := totalPopulation,
      residential := totalCapacityOf s,
      workers := workers,
      employed := employed,
      unemployed := unemployed,
      employmentRate :=
        if 0 < workers then (employed : Rat) / (workers : Rat) else 0 } }

/-- `calculateEmployment` of the second revision: capping moved to
`processGrowth`; the population total is left untouched. -/
def calculateEmployment2 (s : CityState) : CityState :=
  let workers : Int := ⌊(s.population.total : Rat) * (6/10)⌋
  let employed : Int := min workers ⌊filledJobsOf s⌋
  let unemployed := workers - employed
  { s with population := { s.population with
      residential := totalCapacityOf s,
      workers := workers,
      employed := employed,
      unemployed := unemployed,
      employmentRate :=
        if 0 < workers then (employed : Rat) / (workers : Rat) else 0 } }

/-- `calculateHappiness` (identical formula in both revisions). -/
def calculateHappiness (s : CityState) : CityState :=
  let h0 := BASE_HAPPINESS + (s.population.employmentRate - 1/2) * 40
  let avgTax := (s.economy.taxRates.residential + s.economy.taxRates.commercial +
    s.economy.taxRates.industrial) / 3
  let h1 := h0 - (avgTax - 10) * (3/2)
  let svc := fun k => s.buildings.any (fun b => hasService s.catalog b k)
  let h2 := h1 + (if svc .police then 5 else 0) + (if svc .fire then 3 else 0) +
    (if svc .health then 8 else 0) + (if svc .education then 7 else 0)
  let parkCount := (s.buildings.filter (fun b =>
    match findDef s.catalog b.definitionId with
    | some d => d.category == "park"
    | none => false)).length
  let h3 := h2 + min ((parkCount : Rat) * 3) 15
  let totalPollution := s.tiles.foldl (fun acc t => acc + t.pollution) 0
  let avgPollution :=
    if s.tiles.length ≠ 0 then totalPollution / (s.tiles.length : Rat) else 0
  let h4 := h3 - avgPollution * (1/2)
  { s with population := { s.population with
      happiness := clampQ h4 MIN_HAPPINESS MAX_HAPPINESS } }

/-- `processGrowth` of the first revision: records births/deaths/migration
and demographics but never assigns the total. -/
def processGrowth1 (s : CityState) : CityState :=
  let happinessFactor := s.population.happiness / 100
  let demandFactor := max s.zoneDemand.residential 0 / 100
  let growthRate := POPULATION_GROWTH_RATE * happinessFactor * demandFactor
  let births : Int := ⌊(s.population.total : Rat) * growthRate * (3/10)⌋
  let deaths : Int := ⌊(s.population.total : Rat) * (1/1000)⌋
  let migration : Int := ⌊(s.zoneDemand.residential / 100) * MIGRATION_FACTOR * 10⌋
  let total := s.population.total
  { s with population := { s.population with
      births := births, deaths := deaths, migration := migration,
      growth := births - deaths + migration,
      demographics :=
        { children := ⌊(total : Rat) * (2/10)⌋,
          adults := ⌊(total : Rat) * (65/100)⌋,
          elderly := ⌊(total : Rat) * (15/100)⌋ } } }

/-- `Σ capacity * max(occupancy%, 0.1)` over residential buildings
(`maxCapacity` of the second revision's `processGrowth`). -/
def floored10CapacityOf (s : CityState) : Rat :=
  s.buildings.foldl (fun acc b =>
    match findDef s.catalog b.definitionId with
    | none => acc
    | some d =>
      if d.zone == some Zone.residential then
        acc + d.capacity * max (b.occupancy / 100) (1/10)
      else acc) 0

/-- The population cap of the second revision's `processGrowth`
(`maxPopulation = Math.floor(maxCapacity)`). -/
def maxPopulationOf (s : CityState) : Int := ⌊floored10CapacityOf s⌋

/-- `processGrowth` of the second revision, including bootstrap migration
and the conditional capacity cap. -/
def processGrowth2 (s : CityState) : CityState :=
  let maxPopulation := maxPopulationOf s
  let totalCapacity := totalCapacityOf s
  let happinessFactor := s.population.happiness / 100
  let demandFactor := max s.zoneDemand.residential 0 / 100
  let growthRate := POPULATION_GROWTH_RATE * happinessFactor * demandFactor
  let births : Int := ⌊(s.population.total : Rat) * growthRate * (3/10)⌋
  let deaths : Int := ⌊(s.population.total : Rat) * (1/1000)⌋
  let migration : Int :=
    if 0 < totalCapacity || 0 < s.zoneDemand.residential then
      let baseDemand := max (s.zoneDemand.residential / 100) (3/10)
      let m0 : Int := ⌊baseDemand * MIGRATION_FACTOR * 20⌋
      if 0 < totalCapacity then
        if s.population.total == 0 then
          max m0 (max 1 ⌊totalCapacity * (8/100)⌋)
        else if (s.population.total : Rat) <
            max (maxPopulation : Rat) (totalCapacity * (15/100)) then
          let targetCapacity := max (maxPopulation : Rat) (totalCapacity * (25/100))
          let availableCapacity := targetCapacity - (s.population.total : Rat)
          if 0 < availableCapacity then
            m0 + max 1 ⌊availableCapacity * (15/100)⌋
          else m0
        else m0
      else
        if 20 < s.zoneDemand.residential && s.population.total == 0 then
          max m0 5
        else m0
    else 0
  let growth := births - deaths + migration
  let newTotal0 : Int := max 0 (s.population.total + growth)
  let newTotal : Int :=
    if 0 < maxPopulation && maxPopulation < newTotal0 then maxPopulation
    else newTotal0
  { s with population := { s.population with
      total := newTotal, growth := growth, births := births, deaths := deaths,
      migration := migration,
      demographics :=
        { children := ⌊(newTotal : Rat) * (2/10)⌋,
          adults := ⌊(newTotal : Rat) * (65/100)⌋,
          elderly := ⌊(newTotal : Rat) * (15/100)⌋ } } }

/-- Daily `PopulationSystem.update` body, first revision:
occupancy, employment, happiness, growth. -/
def dailyPopulationUpdate1 (s : CityState) : CityState :=
  processGrowth1 (calculateHappiness (calculateEmployment1 (updateOccupancy1 s)))

/-- Daily `PopulationSystem.update` body, second revision:
occupancy, happiness, growth, employment. -/
def dailyPopulationUpdate2 (s : CityState) : CityState :=
  calculateEmployment2 (processGrowth2 (calculateHappiness (updateOccupancy2 s)))

/-! ### `ZoningSystem.processDevelopment` (`SimulationManager.ts` 238–287)

The daily growth pass snapshots `tiles`, `buildingCatalog`, `zoneDemand` and
`economy` once at entry; every `cityStore.placeBuilding` call inside the loop
acts on (and threads) the *current* store state.  `Math.random()` draws are
supplied by the oracle list (one pair per development attempt that reaches
the pick: building index roll and rotation roll). -/

/-- Tiles eligible for development: zoned, unoccupied, and with the zone's
demand above 30 (snapshot order). -/
def developableTiles (s : CityState) : List TileData :=
  s.tiles.filter (fun t =>
    match t.zone with
    | some z => t.buildingId == none && t.roadId == none &&
        30 < demandOf s.zoneDemand z
    | none => false)

/-- Catalog entries suitable for a zone under the snapshot balance:
matching zone, 1×1 footprint, cost at most 10% of the balance. -/
def suitableDefs (s0 : CityState) (z : Zone) : List BuildingDef :=
  s0.catalog.filter (fun b =>
    b.zone == some z && b.sizeW == 1 && b.sizeD == 1 &&
    b.cost ≤ s0.economy.balance * (1/10))

/-- Set the freshly placed building's occupancy
(`placed.occupancy = Math.min(50 + zoneDemand[zone], 100)`). -/
def setOccupancyOf (s : CityState) (bid : Nat) (v : Rat) : CityState :=
  { s with buildings := s.buildings.map (fun b =>
      if b.id == bid then { b with occupancy := v } else b) }

/-- One iteration of the `processDevelopment` loop for a developable tile.
The accumulator carries the threaded store state, the development counter,
the remaining oracle, and the deferred callbacks scheduled so far.  At the
development cap the iteration does nothing (the source `break`s; all
remaining iterations would be skipped anyway). -/
def devStep (s0 : CityState) (t : TileData)
    (acc : CityState × Nat × List (Rat × Rat) × List Deferred) :
    CityState × Nat × List (Rat × Rat) × List Deferred :=
  if 2 ≤ acc.2.1 then acc
  else
    match t.zone with
    | none => acc
    | some z =>
      if (suitableDefs s0 z).isEmpty then acc
      else
        match (suitableDefs s0 z).get?
            (⌊(acc.2.2.1.headD (0, 0)).1 * (suitableDefs s0 z).length⌋).toNat with
        | none => (acc.1, acc.2.1, acc.2.2.1.tail, acc.2.2.2)
        | some bdef =>
          match placeBuilding acc.1 bdef.id t.position
              (⌊(acc.2.2.1.headD (0, 0)).2 * 4⌋ * 90) with
          | (some b, s1, defRun) =>
            (setOccupancyOf s1 b.id (min (50 + demandOf s0.zoneDemand z) 100),
             acc.2.1 + 1, acc.2.2.1.tail, acc.2.2.2 ++ defRun)
          | (none, s1, defRun) =>
            (s1, acc.2.1, acc.2.2.1.tail, acc.2.2.2 ++ defRun)

/-- The `processDevelopment` loop over the developable-tile snapshot. -/
def devLoop (s0 : CityState) :
    List TileData → CityState × Nat × List (Rat × Rat) × List Deferred →
    CityState × Nat × List (Rat × Rat) × List Deferred
  | [], acc => acc
  | t :: rest, acc => devLoop s0 rest (devStep s0 t acc)

/-- `ZoningSystem.processDevelopment`. -/
def processDevelopment (s : CityState) (o : List (Rat × Rat)) :
    CityState × List Deferred :=
  let r := devLoop s (developableTiles s) (s, 0, o, [])
  (r.1, r.2.2.2)

/-! ### Scheduler models

`SimulationManager.update` (`SimulationManager.ts` 63–71) filters enabled
systems, sorts them by ascending priority and invokes each update with *no*
fault handling: an exception propagates out of the loop.
`GameEngine.update` (`GameEngine.ts` 126–141) wraps each invocation in
`try`/`catch`, logs the error and continues with the next system.
Both loops are modelled over an abstract state type; a system's update is a
function that either returns the new state or raises a fault message. -/

/-- Registered system: name, integer priority, enabled flag, update body. -/
structure SysSpec (σ : Type) where
  name : String
  priority : Int
  enabled : Bool
  run : σ → Except String σ

/-- Stable insertion into a priority-ascending list (a later element goes
after existing elements of equal priority, as JavaScript's stable
`Array.prototype.sort` with comparator `a.priority - b.priority` does). -/
def insertByPriority {σ : Type} (a : SysSpec σ) :
    List (SysSpec σ) → List (SysSpec σ)
  | [] => [a]
  | b :: rest =>
    if b.priority ≤ a.priority then b :: insertByPriority a rest
    else a :: b :: rest

/-- Enabled systems in ascending priority order (stable). -/
def sortedEnabled {σ : Type} (l : List (SysSpec σ)) : List (SysSpec σ) :=
  (l.filter (fun s => s.enabled)).foldl (fun acc a => insertByPriority a acc) []

/-- Result of one scheduler tick: the names of the systems whose update was
invoked, the fault messages logged, and the final state (for the
`SimulationManager` loop the fault also escapes, recorded as `.error`). -/
structure TickTrace (σ : Type) where
  ran : List String
  logged : List String
  result : Except String σ

/-- The raw `SimulationManager.update` loop: no `try`/`catch`, so a fault
aborts the remaining systems. -/
def simRun {σ : Type} : List (SysSpec σ) → σ → TickTrace σ
  | [], s => ⟨[], [], .ok s⟩
  | sys :: rest, s =>
    match sys.run s with
    | .ok s1 =>
      let r := simRun rest s1
      ⟨sys.name :: r.ran, r.logged, r.result⟩
    | .error e => ⟨[sys.name], [], .error e⟩

/-- The `GameEngine.update` loop: each invocation is wrapped in
`try`/`catch`; a fault is logged and the loop continues on the prior state. -/
def engineRun {σ : Type} : List (SysSpec σ) → σ → TickTrace σ
  | [], s => ⟨[], [], .ok s⟩
  | sys :: rest, s =>
    match sys.run s with
    | .ok s1 =>
      let r := engineRun rest s1
      ⟨sys.name :: r.ran, r.logged, r.result⟩
    | .error e =>
      let r := engineRun rest s
      ⟨sys.name :: r.ran, e :: r.logged, r.result⟩

/-- `SimulationManager.update(delta, gameTime)`. -/
def simManagerUpdate {σ : Type} (l : List (SysSpec σ)) (s : σ) : TickTrace σ :=
  simRun (sortedEnabled l) s

/-- `GameEngine.update(delta)`. -/
def gameEngineUpdate {σ : Type} (l : List (SysSpec σ)) (s : σ) : TickTrace σ :=
  engineRun (sortedEnabled l) s

/-! ### Pathfinding (`TrafficSystem.findPath`, `TrafficSystem.ts` 197–311)

Map keys (`gridPositionToKey`) are injective on integer positions and are
modelled by the positions themselves.  The `while (openSet.size > 0)` loop is
given explicit fuel; each iteration either returns or grows the closed set by
one and the loop breaks once the closed set exceeds 1000 entries, so 1100
units of fuel are never exhausted. -/

/-- Open-set node of the A* search. -/
structure ANode where
  pos : Pos
  g : Nat
  h : Nat
  f : Nat
  parent : Option Pos
deriving DecidableEq, Repr

/-- Result record (`PathfindingResult`). -/
structure PathResult where
  path : List Pos
  cost : Nat
  found : Bool
deriving DecidableEq, Repr

/-- Open-set lookup. -/
def openGet (l : List (Pos × ANode)) (k : Pos) : Option ANode :=
  (l.find? (fun kv => kv.1 == k)).map (fun kv => kv.2)

/-- Open-set `Map.set`. -/
def openSet (l : List (Pos × ANode)) (k : Pos) (v : ANode) :
    List (Pos × ANode) :=
  if l.any (fun kv => kv.1 == k) then
    l.map (fun kv => if kv.1 == k then (k, v) else kv)
  else l ++ [(k, v)]

/-- Key with the strictly lowest `f`, earliest insertion first
(`lowestF` starts at `Infinity`). -/
def pickLowestF (l : List (Pos × ANode)) : Option (Pos × ANode) :=
  l.foldl (fun acc kv =>
    match acc with
    | none => some kv
    | some best => if kv.2.f < best.2.f then some kv else acc) none

/-- `findNearestRoad`: road position minimising the Manhattan distance,
strict comparison, set-insertion order. -/
def findNearestRoad (p : Pos) (roadPositions : List Pos) : Option Pos :=
  (roadPositions.foldl (fun acc rp =>
    let d := manhattanDistance p rp
    match acc with
    | none => some (rp, d)
    | some best => if d < best.2 then some (rp, d) else acc) none).map
    (fun best => best.1)

/-- Path reconstruction of `findPath`, embedded exactly as written: the test
`openSet.get(pathKey) || closed.find(k => k === pathKey) ? node : null`
prepends `current.pos` — the goal position — on every step, and the parent
is looked up in the *open* set only (closed entries are bare keys). -/
def reconstructPath (op : List (Pos × ANode)) (closed : List Pos)
    (current : ANode) : Nat → Option Pos → List Pos → List Pos
  | 0, _, path => path
  | _ + 1, none, path => path
  | fuel + 1, some pk, path =>
    let hit := (openGet op pk).isSome || closed.contains pk
    let path1 := if hit then current.pos :: path else path
    reconstructPath op closed current fuel ((openGet op pk).bind ANode.parent)
      path1

/-- The A* `while` loop. -/
def astarLoop (roadPositions : List Pos) (endKey : Pos) :
    Nat → List (Pos × ANode) → List Pos → PathResult
  | 0, _, _ => ⟨[], 0, false⟩
  | fuel + 1, op, closed =>
    match pickLowestF op with
    | none => ⟨[], 0, false⟩
    | some current =>
      if current.1 == endKey then
        ⟨reconstructPath op closed current.2
            (op.length + closed.length + 2) (some current.1) [],
         current.2.g, true⟩
      else
        let op1 := op.filter (fun kv => !(kv.1 == current.1))
        let closed1 := closed ++ [current.1]
        let op2 := (getAdjacentTiles current.2.pos).foldl (fun o nb =>
          if !(roadPositions.contains nb) || closed1.contains nb then o
          else
            let tg := current.2.g + 1
            let node : ANode :=
              ⟨nb, tg, manhattanDistance nb endKey,
               tg + manhattanDistance nb endKey, some current.1⟩
            match openGet o nb with
            | some ex => if tg < ex.g then openSet o nb node else o
            | none => openSet o nb node) op1
        if 1000 < closed1.length then ⟨[], 0, false⟩
        else astarLoop roadPositions endKey fuel op2 closed1

/-- Road positions as a `Set` in road-map insertion order. -/
def roadPositionsOf (roads : List Road) : List Pos :=
  roads.foldl (fun acc r =>
    if acc.contains r.position then acc else acc ++ [r.position]) []

/-- `TrafficSystem.findPath`. -/
def findPath (roads : List Road) (start finish : Pos) : PathResult :=
  if roads.isEmpty then ⟨[], 0, false⟩
  else
    let roadPositions := roadPositionsOf roads
    match findNearestRoad start roadPositions,
        findNearestRoad finish roadPositions with
    | some sr, some er =>
      let h0 := manhattanDistance sr er
      astarLoop roadPositions er 1100 [(sr, ⟨sr, 0, h0, h0, none⟩)] []
    | _, _ => ⟨[], 0, false⟩

/-! ### Traffic system (`TrafficSystem.ts`)

Vehicle positions are continuous; the partial advance
`position += d * min(speed*delta/Math.sqrt(dx^2+dz^2), 1)` produces
irrational coordinates, so that single assignment is supplied by a movement
oracle `mv` (floating-point kinematics are outside a rational embedding).
All discrete structure — waypoint advance (`distance < 0.1` embedded as
`distSq < 1/100`), congestion gating (integer vehicle counts against the
0.7 threshold), the parked transition, removal, and the spawn cap — is
embedded exactly. -/

/-- Vehicle state. -/
inductive VehState where
  | moving
  | waiting
  | parked
deriving DecidableEq, Repr

/-- Vehicle (`y` is always 0 and omitted; `targetPosition` is never read). -/
structure Vehicle where
  id : Nat
  vtype : String
  posX : Rat
  posZ : Rat
  path : List Pos
  currentPathIndex : Nat
  speed : Rat
  state : VehState
deriving DecidableEq, Repr

/-- Internal state of `TrafficSystem`. -/
structure TrafficState where
  vehicles : List Vehicle
  congestion : List (Pos × Nat)
  lastSpawnTime : Rat
  nextId : Nat
deriving DecidableEq, Repr

/-- `Math.random()` draws consumed by one spawn attempt. -/
structure SpawnOracle where
  spawnRoll : Rat
  startRoll : Rat
  destRoll : Rat
  typeRoll : Rat
  speedRoll : Rat
deriving DecidableEq, Repr

/-- Oracle supplying the floating-point partial-advance position. -/
def MoveOracle : Type := Vehicle → Pos → Rat × Rat

/-- `randomElement(arr)` = `arr[Math.floor(Math.random() * arr.length)]`
(the draw lies in `[0,1)`, so the index is in range). -/
def randomElement {α : Type} (l : List α) (r : Rat) : Option α :=
  l.get? (⌊r * l.length⌋).toNat

/-- `gridToWorld` x/z coordinate (`TILE_SIZE = 1`, grid half-width 32). -/
def gridToWorldX (p : Pos) : Rat := (p.x : Rat) - 32

def gridToWorldZ (p : Pos) : Rat := (p.z : Rat) - 32

/-- Congestion count at a position (`congestionMap.get(key) || 0`). -/
def congestionAt (m : List (Pos × Nat)) (p : Pos) : Nat :=
  ((m.find? (fun kv => kv.1 == p)).map (fun kv => kv.2)).getD 0

/-- Increment the congestion count at a position (`Map.set` semantics). -/
def bumpCongestion (m : List (Pos × Nat)) (p : Pos) : List (Pos × Nat) :=
  if m.any (fun kv => kv.1 == p) then
    m.map (fun kv => if kv.1 == p then (kv.1, kv.2 + 1) else kv)
  else m ++ [(p, 1)]

/-- `createVehicle`: reject the spawn when no path with at least two
waypoints exists, otherwise append the new vehicle. -/
def createVehicle (city : CityState) (ts : TrafficState) (o : SpawnOracle)
    (start finish : Pos) : TrafficState :=
  let pr := findPath city.roads start finish
  if !pr.found || pr.path.length < 2 then ts
  else
    let v : Vehicle :=
      { id := ts.nextId,
        vtype := if o.typeRoll < 9/10 then "car" else "truck",
        posX := gridToWorldX start, posZ := gridToWorldZ start,
        path := pr.path, currentPathIndex := 0,
        speed := VEHICLE_SPEED * (8/10 + o.speedRoll * (4/10)),
        state := .moving }
    { ts with vehicles := ts.vehicles ++ [v], nextId := ts.nextId + 1 }

/-- Buildings of a zone eligible to take part in spawning
(definition found and occupancy at least 20). -/
def spawnEligible (city : CityState) (z : Zone) : List Pos :=
  (city.buildings.filter (fun b =>
    match findDef city.catalog b.definitionId with
    | none => false
    | some d => !(b.occupancy < (20 : Rat)) && d.zone == some z)).map
    (fun b => b.position)

/-- `spawnVehicles`: no-op at the vehicle cap, throttled to one attempt per
accumulated second, spawn chance `VEHICLE_SPAWN_RATE * |residential|`. -/
def spawnVehicles (city : CityState) (ts : TrafficState) (o : SpawnOracle)
    (delta : Rat) : TrafficState :=
  if MAX_VEHICLES ≤ ts.vehicles.length then ts
  else
    let t := ts.lastSpawnTime + delta
    if t < 1 then { ts with lastSpawnTime := t }
    else
      let ts1 := { ts with lastSpawnTime := 0 }
      let res := spawnEligible city .residential
      let com := spawnEligible city .commercial
      let ind := spawnEligible city .industrial
      if !res.isEmpty && (!com.isEmpty || !ind.isEmpty) then
        if o.spawnRoll < VEHICLE_SPAWN_RATE * res.length then
          match randomElement res o.startRoll,
              randomElement (com ++ ind) o.destRoll with
          | some st, some en => createVehicle city ts1 o st en
          | _, _ => ts1
        else ts1
      else ts1

/-- Per-vehicle movement step of `updateVehicles` (for non-parked
vehicles). -/
def stepVehicle (congestion : List (Pos × Nat)) (mv : MoveOracle)
    (v : Vehicle) : Vehicle :=
  let targetIndex := v.currentPathIndex + 1
  if v.path.length ≤ targetIndex then { v with state := .parked }
  else
    match v.path.get? targetIndex with
    | none => { v with state := .parked }
    | some target =>
      let tx := gridToWorldX target + 1/2
      let tz := gridToWorldZ target + 1/2
      let dx := tx - v.posX
      let dz := tz - v.posZ
      if dx * dx + dz * dz < 1/100 then
        { v with currentPathIndex := targetIndex, posX := tx, posZ := tz }
      else
        let c := congestionAt congestion target
        let np := mv v target
        let st : VehState :=
          if CONGESTION_THRESHOLD < (c : Rat) then .waiting else .moving
        { v with posX := np.1, posZ := np.2, state := st }

/-- `updateVehicles`: vehicles already parked are removed; the rest move. -/
def updateVehicles (ts : TrafficState) (mv : MoveOracle) : TrafficState :=
  { ts with vehicles := ts.vehicles.filterMap (fun v =>
      if v.state == .parked then none
      else some (stepVehicle ts.congestion mv v)) }

/-- `updateCongestion`: rebuild the per-tile vehicle counts and write the
normalised load back into each road. -/
def updateCongestion (city : CityState) (ts : TrafficState) :
    CityState × TrafficState :=
  let cmap := ts.vehicles.foldl (fun m v =>
    bumpCongestion m (Pos.mk ⌊v.posX + 32⌋ ⌊v.posZ + 32⌋)) []
  let roads1 := city.roads.map (fun r =>
    { r with trafficLoad := min ((congestionAt cmap r.position : Rat) / 3) 1 })
  ({ city with roads := roads1 }, { ts with congestion := cmap })

/-- One `TrafficSystem.update` tick: spawn, move, recompute congestion. -/
def trafficUpdate (city : CityState) (ts : TrafficState) (o : SpawnOracle)
    (mv : MoveOracle) (delta : Rat) : CityState × TrafficState :=
  let ts1 := spawnVehicles city ts o delta
  let ts2 := updateVehicles ts1 mv
  updateCongestion city ts2

/-! ### Persistence load (`cityStore.load` 567–622, `GameEngine.loadGame`
214–234)

A parsed snapshot is a JSON value: any field may be absent (`Option`).
`cityStore.load` performs no validation; a JavaScript `TypeError` is raised
exactly where a property of `undefined` is accessed — iterating a missing
`tiles`/`buildings`/`roads` array, reading `tile.position` of a tile without
a position, or reading a field of a missing `economy`/`population` object.
`GameEngine.loadGame` wraps `JSON.parse` and `cityStore.load` in
`try`/`catch` and returns `false` on a raised error; `cityStore.load`
mutates the store only through the single `set(...)` at its end, so a raised
error leaves the store untouched.  Values read from the snapshot are stored
verbatim — absent leaves become `undefined` fields in the store. -/

/-- Tile entry of a parsed snapshot. -/
structure SavedTileJ where
  position : Option Pos
  type : Option TileKind
  buildingId : Option (Option Nat)
  roadId : Option (Option Nat)
  zone : Option (Option Zone)
  pollution : Option Rat
deriving DecidableEq, Repr

/-- Building entry of a parsed snapshot. -/
structure SavedBuildingJ where
  id : Option Nat
  type : Option String
  position : Option Pos
  rotation : Option Int
  level : Option Nat
  occupancy : Option Rat
deriving DecidableEq, Repr

/-- Road entry of a parsed snapshot. -/
structure SavedRoadJ where
  id : Option Nat
  position : Option Pos
  type : Option String
deriving DecidableEq, Repr

/-- Economy section of a parsed snapshot. -/
structure SavedEconomyJ where
  balance : Option Rat
  income : Option Rat
  expenses : Option Rat
  taxRates : Option TaxRates
deriving DecidableEq, Repr

/-- Population section of a parsed snapshot. -/
structure SavedPopulationJ where
  total : Option Int
  employed : Option Int
  unemployed : Option Int
  happiness : Option Rat
deriving DecidableEq, Repr

/-- Parsed snapshot (`SaveData` as found in storage — any part may be
missing). -/
structure SaveDataJ where
  cityName : Option String
  tiles : Option (List SavedTileJ)
  buildings : Option (List SavedBuildingJ)
  roads : Option (List SavedRoadJ)
  economy : Option SavedEconomyJ
  population : Option SavedPopulationJ
deriving DecidableEq, Repr

/-- In-memory building as constructed by `cityStore.load` (leaves copied
verbatim from the snapshot, the rest reset). -/
structure LoadedBuilding where
  id : Option Nat
  definitionId : Option String
  position : Option Pos
  rotation : Option Int
  level : Option Nat
  occupancy : Option Rat
  condition : Rat
  isActive : Bool
  isPowered : Bool
  hasWater : Bool
deriving DecidableEq, Repr

/-- In-memory road as constructed by `cityStore.load`. -/
structure LoadedRoad where
  id : Option Nat
  position : Option Pos
  type : Option String
  connections : List Pos
  trafficLoad : Rat
deriving DecidableEq, Repr

/-- In-memory economy after `cityStore.load`
(`{...initialEconomy, balance, income, expenses, taxRates}`; the untouched
`initialEconomy` parts are constants and omitted). -/
structure LoadedEconomy where
  balance : Option Rat
  income : Option Rat
  expenses : Option Rat
  taxRates : Option TaxRates
deriving DecidableEq, Repr

/-- In-memory population after `cityStore.load`. -/
structure LoadedPopulation where
  total : Option Int
  employed : Option Int
  unemployed : Option Int
  happiness : Option Rat
deriving DecidableEq, Repr

/-- Store state as observable after a load (JavaScript-level: leaves read
from the snapshot may be `undefined`). -/
structure LoadState where
  cityName : Option String
  tiles : List (Pos × SavedTileJ)
  buildings : List (Option Nat × LoadedBuilding)
  roads : List (Option Nat × LoadedRoad)
  economy : LoadedEconomy
  population : LoadedPopulation
deriving DecidableEq, Repr

/-- Generic `Map.set` on an association list. -/
def assocSet {κ ν : Type} [BEq κ] (l : List (κ × ν)) (k : κ) (v : ν) :
    List (κ × ν) :=
  if l.any (fun kv => kv.1 == k) then
    l.map (fun kv => if kv.1 == k then (k, v) else kv)
  else l ++ [(k, v)]

/-- View of a well-formed in-memory `CityState` in the JavaScript-level
universe (every leaf present), used as the prior state of a load. -/
def toLoadState (s : CityState) : LoadState :=
  { cityName := some "city",
    tiles := s.tiles.map (fun t =>
      (t.position,
       { position := some t.position, type := some t.type,
         buildingId := some t.buildingId, roadId := some t.roadId,
         zone := some t.zone, pollution := some t.pollution })),
    buildings := s.buildings.map (fun b =>
      (some b.id,
       { id := some b.id, definitionId := some b.definitionId,
         position := some b.position, rotation := some b.rotation,
         level := some b.level, occupancy := some b.occupancy,
         condition := b.condition, isActive := b.isActive,
         isPowered := b.isPowered, hasWater := b.hasWater })),
    roads := s.roads.map (fun r =>
      (some r.id,
       { id := some r.id, position := some r.position, type := some "road",
         connections := r.connections, trafficLoad := r.trafficLoad })),
    economy :=
      { balance := some s.economy.balance, income := some s.economy.income,
        expenses := some s.economy.expenses,
        taxRates := some s.economy.taxRates },
    population :=
      { total := some s.population.total,
        employed := some s.population.employed,
        unemployed := some s.population.unemployed,
        happiness := some s.population.happiness } }

/-- `cityStore.load(data)`: `.error ()` marks a raised `TypeError` (the
matches follow the order of the property accesses in the source); on
success the returned state is installed by the single trailing `set`. -/
def loadSnapshot (data : SaveDataJ) : Except Unit LoadState :=
  match data.tiles with
  | none => Except.error ()
  | some tilesArr =>
    match tilesArr.foldlM (fun acc t =>
      match t.position with
      | none => Except.error ()
      | some p => Except.ok (assocSet acc p t)) [] with
    | Except.error e => Except.error e
    | Except.ok tiles =>
      match data.buildings with
      | none => Except.error ()
      | some buildingsArr =>
        match data.roads with
        | none => Except.error ()
        | some roadsArr =>
          match data.economy with
          | none => Except.error ()
          | some econ =>
            match data.population with
            | none => Except.error ()
            | some pop =>
              Except.ok
                { cityName := data.cityName, tiles := tiles,
                  buildings := buildingsArr.foldl (fun acc b =>
                    assocSet acc b.id
                      { id := b.id, definitionId := b.type,
                        position := b.position, rotation := b.rotation,
                        level := b.level, occupancy := b.occupancy,
                        condition := 100, isActive := true,
                        isPowered := false, hasWater := false }) [],
                  roads := roadsArr.foldl (fun acc r =>
                    assocSet acc r.id
                      { id := r.id, position := r.position, type := r.type,
                        connections := [], trafficLoad := 0 }) [],
                  economy := ⟨econ.balance, econ.income, econ.expenses,
                    econ.taxRates⟩,
                  population := ⟨pop.total, pop.employed, pop.unemployed,
                    pop.happiness⟩ }

/-- `GameEngine.loadGame`: `none` models absent or unparseable storage; a
raised error is caught, `false` is returned and the prior state kept. -/
def loadGame (stored : Option SaveDataJ) (prior : LoadState) :
    Bool × LoadState :=
  match stored with
  | none => (false, prior)
  | some data =>
    match loadSnapshot data with
    | .ok st => (true, st)
    | .error _ => (false, prior)

/-- Structural well-formedness of a snapshot: every field the save format
prescribes is present, down to the leaves. -/
def wellFormedSave (data : SaveDataJ) : Bool :=
  data.cityName.isSome &&
  (match data.tiles with
   | none => false
   | some l => l.all (fun t => t.position.isSome && t.type.isSome &&
      t.buildingId.isSome && t.roadId.isSome && t.zone.isSome &&
      t.pollution.isSome)) &&
  (match data.buildings with
   | none => false
   | some l => l.all (fun b => b.id.isSome && b.type.isSome &&
      b.position.isSome && b.rotation.isSome && b.level.isSome &&
      b.occupancy.isSome)) &&
  (match data.roads with
   | none => false
   | some l => l.all (fun r => r.id.isSome && r.position.isSome &&
      r.type.isSome)) &&
  (match data.economy with
   | none => false
   | some e => e.balance.isSome && e.income.isSome && e.expenses.isSome &&
      e.taxRates.isSome) &&
  (match data.population with
   | none => false
   | some p => p.total.isSome && p.employed.isSome && p.unemployed.isSome &&
      p.happiness.isSome)

/-! ### Concrete fixtures

Catalog entries below copy the corresponding `DEFAULT_BUILDINGS` records of
`building.types.ts` (fields the embedding keeps).  `scenarioHouseDef` is the
capacity-10 residential definition of spec Scenario 5 (the catalog is a
store field; the scenario fixes capacity, occupancy and tax rate and is
silent on maintenance, taken as 0 so that the hourly application isolates
the income term). -/

def powerPlantDef : BuildingDef :=
  { id := "power_plant_coal", category := "utility", zone := none,
    sizeW := 2, sizeD := 2, cost := 1500, maintenanceCost := 100,
    capacity := 0, jobs := 20, serviceRadius := some 50,
    serviceType := some .power }

def waterTowerDef : BuildingDef :=
  { id := "water_tower", category := "utility", zone := none,
    sizeW := 1, sizeD := 1, cost := 800, maintenanceCost := 40,
    capacity := 0, jobs := 2, serviceRadius := some 40,
    serviceType := some .water }

def smallHouseDef : BuildingDef :=
  { id := "building_small_a", category := "residential",
    zone := some .residential, sizeW := 1, sizeD := 1, cost := 100,
    maintenanceCost := 5, capacity := 4, jobs := 0, serviceRadius := none,
    serviceType := none }

def scenarioHouseDef : BuildingDef :=
  { id := "house_cap10", category := "residential",
    zone := some .residential, sizeW := 1, sizeD := 1, cost := 100,
    maintenanceCost := 0, capacity := 10, jobs := 0, serviceRadius := none,
    serviceType := none }

/-- A fresh tile as `createInitialTile` builds it. -/
def initialTile (p : Pos) : TileData :=
  { position := p, type := .empty, buildingId := none, roadId := none,
    zone := none, elevation := 0, landValue := 50, pollution := 0,
    crime := 0, traffic := 0 }

/-- `initialEconomy` of `cityStore.ts` (starting balance 50000, default tax
rate 9). -/
def initialEconomyState : EconomyState :=
  { balance := 50000, income := 0, expenses := 0,
    taxRates := ⟨9, 9, 9⟩, taxIncome := ⟨0, 0, 0, 0⟩,
    serviceExpenses := ⟨0, 0, 0, 0, 0, 0, 0, 0⟩,
    maintenanceExpenses := 0 }

/-- `initialPopulation` of `cityStore.ts`. -/
def initialPopulationState : PopulationState :=
  { total := 0, residential := 0, workers := 0, employed := 0,
    unemployed := 0, employmentRate := 0, happiness := 50, health := 70,
    education := 50, growth := 0, births := 0, deaths := 0, migration := 0,
    demographics := ⟨0, 0, 0⟩ }

/-- `initialZoneDemand` of `cityStore.ts`. -/
def initialDemand : ZoneDemand :=
  { residential := 50, commercial := 30, industrial := 20 }

/-- An active coal power plant already standing at the origin. -/
def plantBuilding : Building :=
  { id := 0, definitionId := "power_plant_coal", position := ⟨0, 0⟩,
    rotation := 0, level := 1, occupancy := 0, condition := 100,
    isActive := true, isPowered := true, hasWater := false }

/-- City with one active power plant and one free tile at `(3,3)`. -/
def c1State : CityState :=
  { tiles := [initialTile ⟨3, 3⟩], buildings := [plantBuilding], roads := [],
    catalog := [powerPlantDef, smallHouseDef],
    economy := initialEconomyState, population := initialPopulationState,
    zoneDemand := initialDemand, nextId := 1 }

/-! ### Claim fixtures -/

/-- A registered system whose update raises an unexpected fault. -/
def faultySys : SysSpec Nat :=
  { name := "economy", priority := 10, enabled := true,
    run := fun _ => .error "boom" }

/-- A registered system whose update succeeds. -/
def okSys : SysSpec Nat :=
  { name := "traffic", priority := 50, enabled := true,
    run := fun n => .ok (n + 1) }

/-- Road at `(x, 0)`. -/
def roadAt (i : Nat) (x : Int) : Road :=
  { id := i, position := ⟨x, 0⟩, connections := [], trafficLoad := 0 }

/-- Straight road line `(0,0)…(4,0)` of spec Scenario 4. -/
def lineRoads : List Road :=
  [roadAt 0 0, roadAt 1 1, roadAt 2 2, roadAt 3 3, roadAt 4 4]

/-- The same line with the middle tile `(2,0)` removed. -/
def gappedRoads : List Road :=
  [roadAt 0 0, roadAt 1 1, roadAt 3 3, roadAt 4 4]

/-- Residential-zoned empty tile at the origin. -/
def c5Tile : TileData := { initialTile ⟨0, 0⟩ with zone := some Zone.residential }

/-- City with one zoned tile, demand 50, and *no buildings at all* — in
particular no power or water source anywhere. -/
def c5State : CityState :=
  { tiles := [c5Tile], buildings := [], roads := [], catalog := [smallHouseDef],
    economy := initialEconomyState, population := initialPopulationState,
    zoneDemand := initialDemand, nextId := 0 }

/-- The building the daily growth pass spawns on that fixture. -/
def c5Spawned : Building :=
  { id := 0, definitionId := "building_small_a", position := ⟨0, 0⟩,
    rotation := 0, level := 1, occupancy := 100, condition := 100,
    isActive := true, isPowered := false, hasWater := false }

/-- Position property preserved by the development loop: a building stands
where one of the baseline buildings stood, or on one of the snapshot's
developable tiles. -/
def devPosProp (s0 : CityState) (p : Pos) : Prop :=
  (∃ b0 ∈ s0.buildings, p = b0.position) ∨
  (∃ t ∈ developableTiles s0, t.position = p)

/-- The building placed on the C1 fixture by a successful player placement. -/
def c1Placed : Building :=
  { id := 1, definitionId := "building_small_a", position := ⟨3, 3⟩,
    rotation := 0, level := 1, occupancy := 0, condition := 100,
    isActive := true, isPowered := false, hasWater := false }

/-- A structurally corrupt snapshot: every collection and section is
present (so no property access throws), but the single tile entry carries
*only* a position — its `type`, occupant references, zone and metrics are
all missing. -/
def c7BadTile : SavedTileJ :=
  { position := some ⟨0, 0⟩, type := none, buildingId := none,
    roadId := none, zone := none, pollution := none }

def c7BadSave : SaveDataJ :=
  { cityName := some "X", tiles := some [c7BadTile], buildings := some [],
    roads := some [],
    economy := some ⟨some 0, some 0, some 0, some ⟨0, 0, 0⟩⟩,
    population := some ⟨some 0, some 0, some 0, some 0⟩ }

/-- The prior in-memory state (one well-formed tile, as in the C5
fixture). -/
def c7Prior : LoadState := toLoadState c5State

/-- A snapshot with every section missing. -/
def c7EmptySave : SaveDataJ := ⟨none, none, none, none, none, none⟩

/-- Residential building at 50% occupancy used by the C8 witness. -/
def c8House : Building :=
  { id := 0, definitionId := "building_small_a", position := ⟨0, 0⟩,
    rotation := 0, level := 1, occupancy := 50, condition := 100,
    isActive := true, isPowered := false, hasWater := false }

/-- City with one occupied residential building. -/
def c8WitState : CityState :=
  { tiles := [], buildings := [c8House], roads := [],
    catalog := [smallHouseDef], economy := initialEconomyState,
    population := initialPopulationState, zoneDemand := initialDemand,
    nextId := 1 }

/-- The single building of the C9 scenario. -/
def c9House : Building :=
  { id := 0, definitionId := "house_cap10", position := ⟨0, 0⟩,
    rotation := 0, level := 1, occupancy := 50, condition := 100,
    isActive := true, isPowered := true, hasWater := true }

/-- State of the C9 scenario: one capacity-10 residential building at 50%
occupancy, residential tax rate 10. -/
def c9State : CityState :=
  { tiles := [], roads := [], buildings := [c9House],
    catalog := [scenarioHouseDef],
    economy := { initialEconomyState with taxRates := ⟨10, 9, 9⟩ },
    population := initialPopulationState, zoneDemand := initialDemand,
    nextId := 1 }

/-- Empty traffic state. -/
def c10TS : TrafficState :=
  { vehicles := [], congestion := [], lastSpawnTime := 0, nextId := 0 }

/-- Fixed oracle draws for the C10 witness. -/
def c10Oracle : SpawnOracle := ⟨0, 0, 0, 0, 0⟩

/-- Trivial movement oracle (vehicle stays in place). -/
def c10Move : MoveOracle := fun v _ => (v.posX, v.posZ)

/-! ### Claim C1 -/

/-- C1, counterexample.  Placing a house at `(3,3)` — inside the active
plant's radius — returns a state whose new building still has
`isPowered = false`, while running `calculateUtilities` on that very state
flips it to `true`; the recomputation was only *scheduled* (the returned
deferred list is the `setTimeout` callback), not executed within the
mutation.  So the utility recomputation is observably not synchronous. -/
theorem c1_place_defers_recompute :
    ((placeBuilding c1State "building_small_a" ⟨3, 3⟩ 0).2.2 =
      [Deferred.calcUtilities]) ∧
    ((getBuilding (placeBuilding c1State "building_small_a" ⟨3, 3⟩ 0).2.1.buildings
        1).map Building.isPowered = some false) ∧
    ((getBuilding (calculateUtilities
        (placeBuilding c1State "building_small_a" ⟨3, 3⟩ 0).2.1).buildings
        1).map Building.isPowered = some true) := by
  decide

/-- C1, amended.  Every successful placement schedules the utility
recomputation as a deferred zero-delay callback, and likewise every removal
of an existing building with a known definition; failed mutations schedule
nothing.  The state returned by the mutation itself never includes the
recomputation. -/
theorem c1_mutations_schedule_deferred_recompute (s : CityState) (d : String)
    (p : Pos) (r : Int) (bid : Nat) :
    ((placeBuilding s d p r).2.2 =
      if (placeBuilding s d p r).1.isSome then [Deferred.calcUtilities]
      else []) ∧
    ((removeBuilding s bid).2 =
      if ((getBuilding s.buildings bid).bind
          (fun b => findDef s.catalog b.definitionId)).isSome then
        [Deferred.calcUtilities]
      else []) := by
  constructor
  · unfold placeBuilding
    rcases findDef s.catalog d with _ | defn
    · simp
    · by_cases h1 : s.economy.balance < defn.cost
      · simp [h1]
      · by_cases h2 : areaFree s.tiles p defn.sizeW defn.sizeD
        · simp [h1, h2]
        · simp [h1, h2]
  · unfold removeBuilding
    rcases getBuilding s.buildings bid with _ | b
    · simp
    · rcases hd : findDef s.catalog b.definitionId with _ | defn <;>
        simp [hd]

/-! ### Claim C2 -/

/-- C2, counterexample.  Under `SimulationManager.update` — the scheduler
the simulation systems are registered into — a fault in the first system is
*not* caught: it escapes the loop and the remaining enabled system never
runs that tick.  The `GameEngine.update` loop (whose own registry stays
empty at runtime) is the one that would isolate it. -/
theorem c2_sim_manager_does_not_isolate_faults :
    (simManagerUpdate [faultySys, okSys] 0).ran = ["economy"] ∧
    (simManagerUpdate [faultySys, okSys] 0).result = .error "boom" ∧
    (gameEngineUpdate [faultySys, okSys] 0).ran = ["economy", "traffic"] :=
  ⟨rfl, rfl, rfl⟩

/-- Auxiliary: the `GameEngine.update` loop attempts every system handed to
it, in order, and never lets a fault escape. -/
theorem engineRun_ran_isOk {σ : Type} (l : List (SysSpec σ)) (s : σ) :
    (engineRun l s).ran = l.map SysSpec.name ∧
    (engineRun l s).result.isOk = true := by
  induction l generalizing s with
  | nil => exact ⟨rfl, rfl⟩
  | cons sys rest ih =>
    rcases h : sys.run s with e | s1
    · simpa [engineRun, h] using ih s
    · simpa [engineRun, h] using ih s1

/-- C2, amended.  The fault-isolating scheduler loop is
`GameEngine.update`, not `SimulationManager.update`: the engine loop
attempts every enabled system in ascending priority order regardless of
faults raised by earlier systems, and no fault escapes it, while the
`SimulationManager` loop propagates the first fault and skips the remaining
systems for that tick (previous theorem). -/
theorem c2_engine_loop_isolates_faults {σ : Type} (l : List (SysSpec σ))
    (s : σ) :
    (gameEngineUpdate l s).ran = (sortedEnabled l).map SysSpec.name ∧
    (gameEngineUpdate l s).result.isOk = true :=
  engineRun_ran_isOk (sortedEnabled l) s

/-! ### Claim C3 -/

/-- C3, evaluation at the failing input.  On the straight road line the
query reports `found` with cost 4 and the not-found half of the scenario
holds after removing the middle tile, but the reconstructed path is the goal
tile repeated twice — not the five road tiles in order: the reconstruction
loop prepends `current.pos` (the goal) instead of each chain node's own
position, and parent links are unreachable once nodes move to the closed
set (which stores bare keys), so the loop stops after two steps. -/
theorem c3_path_reconstruction_is_broken :
    (findPath lineRoads ⟨0, 0⟩ ⟨4, 0⟩).found = true ∧
    (findPath lineRoads ⟨0, 0⟩ ⟨4, 0⟩).cost = 4 ∧
    (findPath lineRoads ⟨0, 0⟩ ⟨4, 0⟩).path =
      [⟨4, 0⟩, ⟨4, 0⟩] ∧
    ¬ (findPath lineRoads ⟨0, 0⟩ ⟨4, 0⟩).path =
      [⟨0, 0⟩, ⟨1, 0⟩, ⟨2, 0⟩, ⟨3, 0⟩, ⟨4, 0⟩] ∧
    findPath gappedRoads ⟨0, 0⟩ ⟨4, 0⟩ = ⟨[], 0, false⟩ := by
  refine ⟨rfl, rfl, rfl, by decide, rfl⟩

/-! ### Claim C4 -/

/-- A building whose definition exists in a catalog of nonnegative service
radii has a nonnegative radius (the catalog's radii are 50/40/…; the
`|| 0` fallback is 0). -/
theorem radiusOf_nonneg (catalog : List BuildingDef)
    (hrad : ∀ d ∈ catalog, 0 ≤ d.serviceRadius.getD 0) (b : Building) :
    0 ≤ radiusOf catalog b := by
  unfold radiusOf
  rcases hd : findDef catalog b.definitionId with _ | d
  · exact le_refl 0
  · exact hrad d (List.mem_of_find?_eq_some hd)

/-- A point lies within any nonnegative radius of itself. -/
theorem inRadius_self (p : Pos) (r : Int) (h : 0 ≤ r) :
    inRadius p p r = true := by
  simp [inRadius, distSq, h, mul_nonneg h h]

/-- C4.  After `calculateUtilities`, a building is powered exactly when it
lies within the service radius of an active power-type building, and it has
water only when it lies within the service radius of an active water-type
building that is itself powered.  The hypothesis states that every catalog
service radius is nonnegative, which holds of the shipped catalog. -/
theorem c4_utility_coverage (s : CityState)
    (hrad : ∀ d ∈ s.catalog, 0 ≤ d.serviceRadius.getD 0) :
    ∀ b ∈ (calculateUtilities s).buildings,
      (b.isPowered = true ↔
        ∃ src ∈ (calculateUtilities s).buildings,
          hasService s.catalog src .power = true ∧ src.isActive = true ∧
          inRadius src.position b.position (radiusOf s.catalog src) = true) ∧
      (b.hasWater = true →
        ∃ src ∈ (calculateUtilities s).buildings,
          hasService s.catalog src .water = true ∧ src.isActive = true ∧
          src.isPowered = true ∧
          inRadius src.position b.position (radiusOf s.catalog src) = true) := by
  intro b' hb'
  simp only [calculateUtilities, List.mem_map] at hb'
  obtain ⟨b, hb, rfl⟩ := hb'
  refine ⟨⟨fun hp => ?_, fun hspec => ?_⟩, fun hw => ?_⟩
  · simp only [poweredAfter, Bool.or_eq_true, Bool.and_eq_true,
      List.any_eq_true] at hp
    rcases hp with ⟨hsvc, hact⟩ | ⟨src, hsrc, ⟨hsvc, hact⟩, hin⟩
    · exact ⟨_, List.mem_map.mpr ⟨b, hb, rfl⟩, hsvc, hact,
        inRadius_self _ _ (radiusOf_nonneg s.catalog hrad b)⟩
    · exact ⟨_, List.mem_map.mpr ⟨src, hsrc, rfl⟩, hsvc, hact, hin⟩
  · obtain ⟨src', hsrc', hsvc, hact, hin⟩ := hspec
    simp only [calculateUtilities, List.mem_map] at hsrc'
    obtain ⟨src, hsrc, rfl⟩ := hsrc'
    simp only [poweredAfter, Bool.or_eq_true, Bool.and_eq_true,
      List.any_eq_true]
    exact Or.inr ⟨src, hsrc, ⟨hsvc, hact⟩, hin⟩
  · simp only [wateredAfter, Bool.or_eq_true, Bool.and_eq_true,
      List.any_eq_true] at hw
    rcases hw with ⟨⟨hsvc, hact⟩, hpow⟩ | ⟨src, hsrc, ⟨⟨hsvc, hact⟩, hpow⟩, hin⟩
    · exact ⟨_, List.mem_map.mpr ⟨b, hb, rfl⟩, hsvc, hact, hpow,
        inRadius_self _ _ (radiusOf_nonneg s.catalog hrad b)⟩
    · exact ⟨_, List.mem_map.mpr ⟨src, hsrc, rfl⟩, hsvc, hact, hpow, hin⟩

/-- C4, witness at the concrete fixture (the active plant covers itself). -/
theorem c4_utility_coverage_witness :
    (plantBuilding.isPowered = true ↔
      ∃ src ∈ (calculateUtilities c1State).buildings,
        hasService c1State.catalog src .power = true ∧ src.isActive = true ∧
        inRadius src.position plantBuilding.position
          (radiusOf c1State.catalog src) = true) ∧
    (plantBuilding.hasWater = true →
      ∃ src ∈ (calculateUtilities c1State).buildings,
        hasService c1State.catalog src .water = true ∧ src.isActive = true ∧
        src.isPowered = true ∧
        inRadius src.position plantBuilding.position
          (radiusOf c1State.catalog src) = true) :=
  c4_utility_coverage c1State (by decide) plantBuilding (by decide)

/-! ### Claims C5 and C6 -/

/-- C5, counterexample.  The daily growth pass
(`ZoningSystem.processDevelopment`) spawns a building on a zoned tile of a
city that contains *no buildings whatsoever* — hence no active power or
water source covers the tile; only the demand threshold is checked. -/
theorem c5_growth_spawns_without_utilities :
    c5State.buildings = [] ∧
    (processDevelopment c5State [(0, 0)]).1.buildings = [c5Spawned] ∧
    (30 : Rat) < demandOf c5State.zoneDemand Zone.residential := by
  refine ⟨rfl, by with_unfolding_all rfl, by decide⟩

/-- Membership through `Map.set` on the building map. -/
theorem mem_setBuilding (l : List Building) (b b' : Building)
    (h : b' ∈ setBuilding l b) : b' ∈ l ∨ b' = b := by
  unfold setBuilding at h
  by_cases hc : l.any (fun x => x.id == b.id)
  · rw [if_pos hc] at h
    obtain ⟨x, hx, hfx⟩ := List.mem_map.mp h
    by_cases hid : x.id == b.id
    · right; rw [if_pos hid] at hfx; exact hfx.symm
    · left; rw [if_neg hid] at hfx; exact hfx ▸ hx
  · rw [if_neg hc] at h
    rcases List.mem_append.mp h with h1 | h1
    · exact Or.inl h1
    · exact Or.inr (List.mem_singleton.mp h1)

/-- Buildings present after a `placeBuilding` call either already existed
or stand at the requested position. -/
theorem placeBuilding_mem_buildings (s : CityState) (d : String) (p : Pos)
    (r : Int) (b' : Building)
    (h : b' ∈ (placeBuilding s d p r).2.1.buildings) :
    b' ∈ s.buildings ∨ b'.position = p := by
  unfold placeBuilding at h
  split at h
  · exact Or.inl h
  · split at h
    · exact Or.inl h
    · split at h
      · exact Or.inl h
      · rcases mem_setBuilding _ _ _ h with h3 | h3
        · exact Or.inl h3
        · exact Or.inr (by rw [h3])

/-- Buildings after `setOccupancyOf` keep their positions. -/
theorem mem_setOccupancyOf (s : CityState) (bid : Nat) (v : Rat)
    (b' : Building) (h : b' ∈ (setOccupancyOf s bid v).buildings) :
    ∃ b0 ∈ s.buildings, b'.position = b0.position := by
  unfold setOccupancyOf at h
  obtain ⟨x, hx, hfx⟩ := List.mem_map.mp h
  refine ⟨x, hx, ?_⟩
  by_cases hid : x.id == bid
  · rw [if_pos hid] at hfx; rw [← hfx]
  · rw [if_neg hid] at hfx; rw [← hfx]

/-- One development iteration preserves the position property. -/
theorem devStep_positions (s0 : CityState) (t : TileData)
    (acc : CityState × Nat × List (Rat × Rat) × List Deferred)
    (ht : t ∈ developableTiles s0)
    (hacc : ∀ b ∈ acc.1.buildings, devPosProp s0 b.position) :
    ∀ b ∈ (devStep s0 t acc).1.buildings, devPosProp s0 b.position := by
  unfold devStep
  split
  · exact hacc
  · split
    · exact hacc
    · next z hz =>
      split
      · exact hacc
      · split
        · exact hacc
        · next bdef hget =>
          split
          · next bnew s1 defrun hpl =>
            intro b hbmem
            obtain ⟨b0, hb0, hpos⟩ := mem_setOccupancyOf _ _ _ b hbmem
            rw [hpos]
            have hb0' : b0 ∈ (placeBuilding acc.1 bdef.id t.position
                (⌊(acc.2.2.1.headD (0, 0)).2 * 4⌋ * 90)).2.1.buildings := by
              rw [hpl]; exact hb0
            rcases placeBuilding_mem_buildings _ _ _ _ _ hb0' with h3 | h3
            · exact hacc b0 h3
            · exact Or.inr ⟨t, ht, h3.symm⟩
          · next s1 defrun hpl =>
            intro b hbmem
            have hb' : b ∈ (placeBuilding acc.1 bdef.id t.position
                (⌊(acc.2.2.1.headD (0, 0)).2 * 4⌋ * 90)).2.1.buildings := by
              rw [hpl]; exact hbmem
            rcases placeBuilding_mem_buildings _ _ _ _ _ hb' with h3 | h3
            · exact hacc b h3
            · exact Or.inr ⟨t, ht, h3.symm⟩

/-- Loop invariant of `devLoop`: positions of all buildings satisfy
`devPosProp` provided the processed tiles come from the developable
snapshot. -/
theorem devLoop_positions (s0 : CityState) (devs : List TileData)
    (hdevs : ∀ t ∈ devs, t ∈ developableTiles s0) :
    ∀ acc : CityState × Nat × List (Rat × Rat) × List Deferred,
      (∀ b ∈ acc.1.buildings, devPosProp s0 b.position) →
      ∀ b ∈ (devLoop s0 devs acc).1.buildings, devPosProp s0 b.position := by
  induction devs with
  | nil => intro acc hacc; exact hacc
  | cons t rest ih =>
    intro acc hacc
    have hrest : ∀ t' ∈ rest, t' ∈ developableTiles s0 :=
      fun t' ht' => hdevs t' (List.mem_cons_of_mem t ht')
    have ht : t ∈ developableTiles s0 := hdevs t (List.mem_cons_self t rest)
    exact ih hrest (devStep s0 t acc) (devStep_positions s0 t acc ht hacc)

/-- C5, amended.  The daily growth pass develops only tiles from the
developable snapshot — zoned, unoccupied, and with the zone's demand above
30; no power or water condition is involved.  Every building present after
the pass stands at a pre-existing building's position or on such a tile. -/
theorem c5_growth_requires_demand_above_30 (s : CityState)
    (o : List (Rat × Rat)) (t : TileData) (b : Building)
    (htdev : t ∈ developableTiles s)
    (hb : b ∈ (processDevelopment s o).1.buildings) :
    (t.buildingId = none ∧ t.roadId = none ∧
      ∃ z, t.zone = some z ∧ 30 < demandOf s.zoneDemand z) ∧
    devPosProp s b.position := by
  constructor
  · unfold developableTiles at htdev
    have hpred := List.of_mem_filter htdev
    rcases hz : t.zone with _ | z
    · rw [hz] at hpred; exact absurd hpred (by simp)
    · rw [hz] at hpred
      simp only [Bool.and_eq_true, decide_eq_true_eq] at hpred
      exact ⟨by simpa using hpred.1.1, by simpa using hpred.1.2, z, rfl, hpred.2⟩
  · refine devLoop_positions s (developableTiles s) (fun _ h => h)
      (s, 0, o, []) ?_ b ?_
    · intro b0 hb0; exact Or.inl ⟨b0, hb0, rfl⟩
    · exact hb

/-- C5 amended, witness at the concrete fixture. -/
theorem c5_growth_requires_demand_above_30_witness :
    ((c5Tile.buildingId = none ∧ c5Tile.roadId = none ∧
      ∃ z, c5Tile.zone = some z ∧ 30 < demandOf c5State.zoneDemand z) ∧
     devPosProp c5State c5Spawned.position) :=
  c5_growth_requires_demand_above_30 c5State [(0, 0)] c5Tile c5Spawned
    (by decide)
    (by
      have h : (processDevelopment c5State [(0, 0)]).1.buildings =
          [c5Spawned] := by with_unfolding_all rfl
      rw [h]; exact List.mem_singleton.mpr rfl)

/-- C6, counterexample.  The very same daily-growth run that spawns
`c5Spawned` debits the city balance by the definition's cost (100): organic
growth goes through the cost-charging `placeBuilding`, not
`placeBuildingFree`. -/
theorem c6_growth_spawn_debits_balance :
    c5State.economy.balance = 50000 ∧
    (processDevelopment c5State [(0, 0)]).1.economy.balance = 49900 ∧
    (processDevelopment c5State [(0, 0)]).1.buildings = [c5Spawned] := by
  refine ⟨rfl, by with_unfolding_all rfl, by with_unfolding_all rfl⟩

/-- C6, amended.  `placeBuildingFree` (the zero-cost spawn path used by the
hourly `growZones`) leaves the economy untouched, while every successful
`placeBuilding` — the path the daily `processDevelopment` growth actually
takes, like player placement — debits the definition's cost. -/
theorem c6_free_spawn_keeps_economy_place_debits (s : CityState) (d : String)
    (p : Pos) (r : Int) (b : Building) (defn : BuildingDef)
    (hplace : (placeBuilding s d p r).1 = some b)
    (hdef : findDef s.catalog d = some defn) :
    (placeBuildingFree s d p).economy = s.economy ∧
    (placeBuilding s d p r).2.1.economy.balance =
      s.economy.balance - defn.cost := by
  constructor
  · unfold placeBuildingFree
    rcases findDef s.catalog d with _ | _ <;> rfl
  · unfold placeBuilding at hplace ⊢
    simp only [hdef] at hplace ⊢
    by_cases h1 : s.economy.balance < defn.cost
    · simp [h1] at hplace
    · by_cases h2 : areaFree s.tiles p defn.sizeW defn.sizeD
      · simp [h1, h2]
      · simp [h1, h2] at hplace

/-- C6 amended, witness at the concrete fixtures. -/
theorem c6_free_spawn_keeps_economy_place_debits_witness :
    (placeBuildingFree c1State "building_small_a" ⟨3, 3⟩).economy =
      c1State.economy ∧
    (placeBuilding c1State "building_small_a" ⟨3, 3⟩ 0).2.1.economy.balance =
      c1State.economy.balance - smallHouseDef.cost :=
  c6_free_spawn_keeps_economy_place_debits c1State "building_small_a"
    ⟨3, 3⟩ 0 c1Placed smallHouseDef (by with_unfolding_all rfl) (by decide)

/-! ### Claim C7 -/

/-- C7, counterexample.  The corrupt snapshot is *accepted*: `load` applies
it wholesale — the prior tile map is replaced by the corrupt one — instead
of rejecting it and retaining the prior state.  `deserialize` validates
nothing; only accesses on `undefined` throw. -/
theorem c7_corrupt_snapshot_is_applied :
    wellFormedSave c7BadSave = false ∧
    (loadGame (some c7BadSave) c7Prior).1 = true ∧
    ((loadGame (some c7BadSave) c7Prior).2.tiles == c7Prior.tiles) =
      false := by
  refine ⟨by with_unfolding_all rfl, by with_unfolding_all rfl,
    by with_unfolding_all rfl⟩

/-- The tile pass of `load` raises iff it hits an entry without a
position. -/
theorem tileFold_error (l : List SavedTileJ)
    (h : ∃ t ∈ l, t.position = none) :
    ∀ acc, (l.foldlM (fun acc t =>
      match t.position with
      | none => Except.error ()
      | some p => Except.ok (assocSet acc p t)) acc :
        Except Unit (List (Pos × SavedTileJ))) = Except.error () := by
  induction l with
  | nil => intro acc; obtain ⟨t, ht, _⟩ := h; exact absurd ht (by simp)
  | cons t rest ih =>
    intro acc
    rcases hp : t.position with _ | p
    · simp only [List.foldlM_cons, hp]
      rfl
    · rcases h with ⟨t', ht', hp'⟩
      rcases List.mem_cons.mp ht' with rfl | hmem
      · rw [hp] at hp'; cases hp'
      · simp only [List.foldlM_cons, hp]
        exact ih ⟨t', hmem, hp'⟩ (assocSet acc p t)

/-- C7, amended.  `load` fails closed exactly when evaluating the snapshot
*throws*: a missing `tiles`/`buildings`/`roads` array, a tile entry without
a position, or a missing `economy`/`population` object raises, the raise is
caught by `loadGame`, and the prior in-memory state is fully retained
(`load` mutates only via its single trailing `set`).  Corrupt snapshots
that do not throw — missing leaf fields — are applied instead
(previous theorem). -/
theorem c7_load_fails_closed_only_on_throw (prior : LoadState)
    (data : SaveDataJ)
    (hthrow : data.tiles = none ∨ data.buildings = none ∨
      data.roads = none ∨ data.economy = none ∨ data.population = none ∨
      ∃ l, data.tiles = some l ∧ ∃ t ∈ l, t.position = none) :
    loadSnapshot data = Except.error () ∧
    loadGame (some data) prior = (false, prior) := by
  have herr : loadSnapshot data = Except.error () := by
    rcases htl : data.tiles with _ | l
    · simp only [loadSnapshot, htl]
    · rcases hfold : (l.foldlM (fun acc t =>
          match t.position with
          | none => Except.error ()
          | some p => Except.ok (assocSet acc p t)) [] :
            Except Unit (List (Pos × SavedTileJ))) with e | tiles
      · simp only [loadSnapshot, htl, hfold]
      · rcases hb : data.buildings with _ | lb
        · simp only [loadSnapshot, htl, hfold, hb]
        · rcases hr : data.roads with _ | lr
          · simp only [loadSnapshot, htl, hfold, hb, hr]
          · rcases he : data.economy with _ | e
            · simp only [loadSnapshot, htl, hfold, hb, hr, he]
            · rcases hp : data.population with _ | p
              · simp only [loadSnapshot, htl, hfold, hb, hr, he, hp]
              · rcases hthrow with h | h | h | h | h | h
                · rw [htl] at h; cases h
                · rw [hb] at h; cases h
                · rw [hr] at h; cases h
                · rw [he] at h; cases h
                · rw [hp] at h; cases h
                · obtain ⟨l', hl', hbadtile⟩ := h
                  rw [htl] at hl'
                  cases hl'
                  rw [tileFold_error l hbadtile []] at hfold
                  cases hfold
  exact ⟨herr, by simp [loadGame, herr]⟩

/-- C7 amended, witness: a snapshot with no `tiles` array is rejected and
the prior state retained. -/
theorem c7_load_fails_closed_only_on_throw_witness :
    loadSnapshot c7EmptySave = Except.error () ∧
    loadGame (some c7EmptySave) c7Prior = (false, c7Prior) :=
  c7_load_fails_closed_only_on_throw c7Prior c7EmptySave (Or.inl rfl)

/-! ### Claim C8 -/

/-- C8, counterexample.  On a city with zero residential buildings (so the
realized residential capacity `Σ capacity × occupancyFraction` is 0) but
positive residential demand, the second revision's daily update bootstraps
5 settlers: the final total (5) exceeds the realized capacity (0).  The
cap in `processGrowth` is skipped whenever its 10%-floored capacity bound
is zero. -/
theorem c8_population_exceeds_realized_capacity :
    (dailyPopulationUpdate2 c5State).population.total = 5 ∧
    occupiedCapacityOf (dailyPopulationUpdate2 c5State) = 0 ∧
    ¬ ((5 : Rat) ≤ 0) := by
  refine ⟨by with_unfolding_all rfl, by with_unfolding_all rfl, by norm_num⟩

/-- The conditional cap of the second revision's `processGrowth` bounds the
new total whenever the cap is positive. -/
theorem ite_cap_le (M nt : Int) (h : 0 < M) :
    (if (decide (0 < M) && decide (M < nt)) = true then M else nt) ≤ M := by
  by_cases hlt : M < nt
  · rw [if_pos (by simp [h, hlt])]
  · rw [if_neg (by simp [hlt])]
    exact le_of_not_lt hlt

/-- C8, amended.  Second revision: whenever the growth pass's capacity
bound `⌊Σ capacity × max(occupancyFraction, 0.1)⌋` (over residential
buildings, after the occupancy stage) is positive, the final daily total is
at most that bound — note the 10% occupancy floor: the bound is *not* the
realized capacity, and with bound zero no cap applies at all
(previous theorem).  First revision: the final total *equals* the floored
realized capacity, hence never exceeds it. -/
theorem c8_population_cap_amended (s : CityState)
    (hpos : 0 < maxPopulationOf (updateOccupancy2 s)) :
    (dailyPopulationUpdate2 s).population.total ≤
      maxPopulationOf (updateOccupancy2 s) ∧
    ((dailyPopulationUpdate1 s).population.total : Rat) ≤
      occupiedCapacityOf (dailyPopulationUpdate1 s) := by
  constructor
  · show (processGrowth2 (calculateHappiness (updateOccupancy2 s))).population.total ≤ _
    have hmax : maxPopulationOf (calculateHappiness (updateOccupancy2 s)) =
        maxPopulationOf (updateOccupancy2 s) := rfl
    unfold processGrowth2
    dsimp only
    rw [hmax]
    exact ite_cap_le _ _ hpos
  · show ((⌊occupiedCapacityOf (updateOccupancy1 s)⌋ : Int) : Rat) ≤
      occupiedCapacityOf (updateOccupancy1 s)
    exact Int.floor_le _

/-- C8 amended, witness at the concrete fixture. -/
theorem c8_population_cap_amended_witness :
    (dailyPopulationUpdate2 c8WitState).population.total ≤
      maxPopulationOf (updateOccupancy2 c8WitState) ∧
    ((dailyPopulationUpdate1 c8WitState).population.total : Rat) ≤
      occupiedCapacityOf (dailyPopulationUpdate1 c8WitState) :=
  c8_population_cap_amended c8WitState
    (by with_unfolding_all (exact of_decide_eq_true rfl))

/-! ### Claim C9 -/

/-- C9.  With exactly one residential building of capacity 10 at 50%
occupancy, residential tax rate 10% and no maintenance cost, the hourly
economy update computes the income contribution
`10 × 0.5 × R × 0.10` (`R = TAX_INCOME_PER_RESIDENT`), stores it (the
`Math.floor` is the identity on the value 5), and applies `income / 24` to
the balance that hour. -/
theorem c9_hourly_income_scenario (s : CityState) (b : Building)
    (d : BuildingDef)
    (hbs : s.buildings = [b])
    (hdef : findDef s.catalog b.definitionId = some d)
    (hzone : d.zone = some Zone.residential)
    (hcap : d.capacity = 10)
    (hmaint : d.maintenanceCost = 0)
    (hocc : b.occupancy = 50)
    (htax : s.economy.taxRates.residential = 10) :
    residentialIncome s = 10 * (1 / 2) * TAX_INCOME_PER_RESIDENT * (10 / 100) ∧
    (hourlyEconomyUpdate s).economy.income = 5 ∧
    (hourlyEconomyUpdate s).economy.balance =
      s.economy.balance + (hourlyEconomyUpdate s).economy.income / 24 := by
  have hri : residentialIncome s =
      10 * (1 / 2) * TAX_INCOME_PER_RESIDENT * (10 / 100) := by
    simp only [residentialIncome, hbs, List.foldl_cons, List.foldl_nil, hdef,
      hzone, hcap, hocc, htax, TAX_INCOME_PER_RESIDENT]
    norm_num
  have hci : commercialIncome s = 0 := by
    simp only [commercialIncome, hbs, List.foldl_cons, List.foldl_nil, hdef,
      hzone]
  have hii : industrialIncome s = 0 := by
    simp only [industrialIncome, hbs, List.foldl_cons, List.foldl_nil, hdef,
      hzone]
  have hinc : (calculateIncome s).economy.income = 5 := by
    show ((⌊residentialIncome s + commercialIncome s + industrialIncome s⌋ :
      Int) : Rat) = 5
    rw [hri, hci, hii, TAX_INCOME_PER_RESIDENT]
    norm_num
  have hm : maintenanceOf (calculateIncome s) = 0 := by
    show maintenanceOf s = 0
    simp [maintenanceOf, hbs, hdef, hmaint]
  have hsvc : ∀ k, serviceExpenseOf (calculateIncome s) k = 0 := by
    intro k
    show serviceExpenseOf s k = 0
    simp only [serviceExpenseOf, hbs, List.foldl_cons, List.foldl_nil, hdef,
      hmaint]
    split <;> simp
  have hexp : (calculateExpenses (calculateIncome s)).economy.expenses = 0 := by
    show maintenanceOf (calculateIncome s) +
      (serviceExpenseOf (calculateIncome s) .police +
       serviceExpenseOf (calculateIncome s) .fire +
       serviceExpenseOf (calculateIncome s) .health +
       serviceExpenseOf (calculateIncome s) .education +
       serviceExpenseOf (calculateIncome s) .power +
       serviceExpenseOf (calculateIncome s) .water +
       serviceExpenseOf (calculateIncome s) .waste) = 0
    rw [hm, hsvc, hsvc, hsvc, hsvc, hsvc, hsvc, hsvc]
    norm_num
  refine ⟨hri, hinc, ?_⟩
  show (calculateExpenses (calculateIncome s)).economy.balance +
    ((calculateExpenses (calculateIncome s)).economy.income / 24 -
     (calculateExpenses (calculateIncome s)).economy.expenses / 24) = _
  have hbal : (calculateExpenses (calculateIncome s)).economy.balance =
      s.economy.balance := rfl
  have hinc2 : (calculateExpenses (calculateIncome s)).economy.income =
      (calculateIncome s).economy.income := rfl
  have hinc3 : (hourlyEconomyUpdate s).economy.income = (5 : Rat) := hinc
  rw [hbal, hinc2, hexp, hinc, hinc3]
  ring

/-- C9, witness at the concrete scenario state. -/
theorem c9_hourly_income_scenario_witness :
    residentialIncome c9State =
      10 * (1 / 2) * TAX_INCOME_PER_RESIDENT * (10 / 100) ∧
    (hourlyEconomyUpdate c9State).economy.income = 5 ∧
    (hourlyEconomyUpdate c9State).economy.balance =
      c9State.economy.balance +
        (hourlyEconomyUpdate c9State).economy.income / 24 :=
  c9_hourly_income_scenario c9State c9House scenarioHouseDef rfl rfl rfl
    rfl rfl rfl rfl

/-! ### Claim C10 -/

/-- `createVehicle` adds at most one vehicle. -/
theorem createVehicle_length (city : CityState) (ts : TrafficState)
    (o : SpawnOracle) (st en : Pos) :
    (createVehicle city ts o st en).vehicles.length ≤
      ts.vehicles.length + 1 := by
  unfold createVehicle
  dsimp only
  split <;> first
    | exact Nat.le_succ _
    | simp

/-- The spawn step keeps the vehicle count at or below `MAX_VEHICLES`: at
the cap it spawns nothing, below it it adds at most one vehicle. -/
theorem spawnVehicles_length (city : CityState) (ts : TrafficState)
    (o : SpawnOracle) (delta : Rat)
    (h : ts.vehicles.length ≤ MAX_VEHICLES) :
    (spawnVehicles city ts o delta).vehicles.length ≤ MAX_VEHICLES := by
  unfold spawnVehicles
  split
  · exact h
  · next hge =>
    have hlt : ts.vehicles.length < MAX_VEHICLES :=
      Nat.lt_of_not_le (fun hc => hge hc)
    dsimp only
    split
    · exact h
    · split
      · split
        · split <;> first
            | exact le_trans (createVehicle_length _ _ _ _ _)
                (Nat.succ_le_of_lt hlt)
            | exact h
        · exact h
      · exact h

/-- The movement step never adds vehicles. -/
theorem updateVehicles_length (ts : TrafficState) (mv : MoveOracle) :
    (updateVehicles ts mv).vehicles.length ≤ ts.vehicles.length :=
  List.length_filterMap_le _ _

/-- C10.  The Traffic System's vehicle map never exceeds `MAX_VEHICLES`
(200): when the count has reached the cap the spawn step creates no vehicle
at all, and a full tick — spawn, movement, congestion rebuild — preserves
the bound (movement only removes, congestion rebuilding does not touch the
vehicle map). -/
theorem c10_vehicle_cap (city : CityState) (ts : TrafficState)
    (o : SpawnOracle) (mv : MoveOracle) (delta : Rat)
    (hcap : ts.vehicles.length ≤ MAX_VEHICLES) :
    (MAX_VEHICLES ≤ ts.vehicles.length →
      (spawnVehicles city ts o delta).vehicles = ts.vehicles) ∧
    (trafficUpdate city ts o mv delta).2.vehicles.length ≤ MAX_VEHICLES := by
  constructor
  · intro hge
    unfold spawnVehicles
    rw [if_pos hge]
  · show (updateCongestion city
      (updateVehicles (spawnVehicles city ts o delta) mv)).2.vehicles.length ≤ _
    have hcon : (updateCongestion city
        (updateVehicles (spawnVehicles city ts o delta) mv)).2.vehicles =
        (updateVehicles (spawnVehicles city ts o delta) mv).vehicles := rfl
    rw [hcon]
    exact le_trans (updateVehicles_length _ mv)
      (spawnVehicles_length city ts o delta hcap)

/-- C10, witness at the concrete fixture. -/
theorem c10_vehicle_cap_witness :
    (MAX_VEHICLES ≤ c10TS.vehicles.length →
      (spawnVehicles c9State c10TS c10Oracle 0).vehicles = c10TS.vehicles) ∧
    (trafficUpdate c9State c10TS c10Oracle c10Move 0).2.vehicles.length ≤
      MAX_VEHICLES :=
  c10_vehicle_cap c9State c10TS c10Oracle c10Move 0 (by decide)

end MyCity
